import Mathlib

/-!
A shallow embedding of `custom_endpoints/model.py`: a configuration-driven
loader plus three request handlers (`get_models`, `detect_image`,
`segment_image`) that delegate to an object-detection / segmentation
inference library (ultralytics YOLO) and to PIL for image decoding.

Conventions of the embedding:
* Python strings are `String`, bytes objects are `List Nat` (each element a
  byte value `< 256`), floats carried through unchanged by the code are `ℚ`
  (no float arithmetic is performed by this code).
* The filesystem is explicit: `String → Bool` for `os.path.exists`, and
  `String → Option (List Nat)` mapping a path to the file's bytes for the
  read/write done by `segment_image`.
* External library calls whose behavior the code merely relies on
  (PIL `Image.open`, PIL WEBP encoding, `YOLO(...)` model construction and
  inference) are parameters of the embedding; library calls with fixed,
  documented data behavior (`base64.b64decode`, `base64.b64encode`,
  `os.path.join`, tensor `.tolist()`) are modelled concretely.
* Exceptions are modelled with `Except PyError`; `PyError` names the Python
  exception classes raised on each path.
-/

/-- The Python exceptions that can be raised by this code or by the library
calls it makes, plus `uninitializedModel`, which models the spec's
`UninitializedModel` taxonomy entry (the source never raises it). -/
inductive PyError where
  | valueError (msg : String)
  | fileNotFoundError (msg : String)
  | binasciiError (msg : String)
  | unidentifiedImageError (msg : String)
  | typeError (msg : String)
  | indexError (msg : String)
  | attributeError (msg : String)
  | uninitializedModel
deriving DecidableEq

/-- `true` exactly on the spec's `UninitializedModel` error. -/
def PyError.isUninitializedModel : PyError → Bool
  | .uninitializedModel => true
  | _ => false

/-- JSON-compatible values built by the request handlers. Numbers are `ℚ`
because the code only moves them, never computes with them. -/
inductive JsonVal where
  | str (s : String)
  | num (q : ℚ)
  | arr (xs : List JsonVal)
  | obj (fields : List (String × JsonVal))
  | null

/-- `true` exactly on JSON numbers. -/
def isNum : JsonVal → Bool
  | .num _ => true
  | _ => false

/-! ## base64 (Python `base64.b64decode` / `b64encode`) -/

/-- Value of a character in the standard base64 alphabet, `none` for
characters outside it. -/
def b64charVal (c : Char) : Option Nat :=
  if 'A' ≤ c ∧ c ≤ 'Z' then some (c.toNat - 'A'.toNat)
  else if 'a' ≤ c ∧ c ≤ 'z' then some (c.toNat - 'a'.toNat + 26)
  else if '0' ≤ c ∧ c ≤ '9' then some (c.toNat - '0'.toNat + 52)
  else if c = '+' then some 62
  else if c = '/' then some 63
  else none

/-- Character of the standard base64 alphabet at index `n` (for `n < 64`). -/
def b64char (n : Nat) : Char :=
  if n < 26 then Char.ofNat ('A'.toNat + n)
  else if n < 52 then Char.ofNat ('a'.toNat + n - 26)
  else if n < 62 then Char.ofNat ('0'.toNat + n - 52)
  else if n = 62 then '+' else '/'

/-- Modelled from CPython's `binascii.a2b_base64` in non-strict mode, which
is what `base64.b64decode` runs with the default `validate=False`: a
left-to-right scan accumulating 6-bit values into a quad, emitting bytes
eagerly as each data character arrives. Characters outside the alphabet are
discarded. A `=` is ignored while fewer than two data characters of the
current quad have been seen; otherwise it counts as padding, and decoding
stops successfully once the quad position plus the pad count reaches four
(trailing input is ignored). A data character resets the pad count. At end
of input, a quad position of 1 raises the "1 more than a multiple of 4"
`binascii.Error` and a quad position of 2 or 3 raises "Incorrect padding". -/
def a2b_base64 : List Char → Nat → Nat → Nat → List Nat →
    Except PyError (List Nat)
  | [], quad_pos, _, _, acc =>
      if quad_pos == 0 then .ok acc
      else if quad_pos == 1 then
        .error (.binasciiError
          "Invalid base64-encoded string: number of data characters cannot be 1 more than a multiple of 4")
      else .error (.binasciiError "Incorrect padding")
  | c :: rest, quad_pos, leftchar, pads, acc =>
      if c == '=' then
        if 2 ≤ quad_pos then
          if 4 ≤ quad_pos + (pads + 1) then .ok acc
          else a2b_base64 rest quad_pos leftchar (pads + 1) acc
        else a2b_base64 rest quad_pos leftchar pads acc
      else
        match b64charVal c with
        | none => a2b_base64 rest quad_pos leftchar pads acc
        | some v =>
          match quad_pos with
          | 0 => a2b_base64 rest 1 v 0 acc
          | 1 => a2b_base64 rest 2 (v % 16) 0 (acc ++ [leftchar * 4 + v / 16])
          | 2 => a2b_base64 rest 3 (v % 4) 0 (acc ++ [leftchar * 16 + v / 4])
          | _ => a2b_base64 rest 0 0 0 (acc ++ [leftchar * 64 + v])

/-- Python `base64.b64decode` on characters: the `a2b_base64` scan started
from the empty state. -/
def pyB64decodeList (cs : List Char) : Except PyError (List Nat) :=
  a2b_base64 cs 0 0 0 []

/-- Python `base64.b64decode(s)` (default lenient mode), on strings. -/
def pyB64decode (s : String) : Except PyError (List Nat) :=
  pyB64decodeList s.toList

/-- Python `base64.b64encode`: three bytes to four alphabet characters, a
final group of one or two bytes padded with `=`. -/
def b64encodeList : List Nat → List Char
  | [] => []
  | [b1] => [b64char (b1 / 4), b64char (b1 % 4 * 16), '=', '=']
  | [b1, b2] => [b64char (b1 / 4), b64char (b1 % 4 * 16 + b2 / 16),
                 b64char (b2 % 16 * 4), '=']
  | b1 :: b2 :: b3 :: rest =>
      b64char (b1 / 4) :: b64char (b1 % 4 * 16 + b2 / 16) ::
      b64char (b2 % 16 * 4 + b3 / 64) :: b64char (b3 % 64) ::
      b64encodeList rest

/-- Python `base64.b64encode(bs).decode("utf-8")`: the base64 text of `bs`. -/
def b64encode (bs : List Nat) : String :=
  String.mk (b64encodeList bs)

/-- Well-formed (strict, RFC 4648) base64 text: alphabet characters followed
by at most two `=` pads, total length a multiple of four. -/
def isStrictBase64 (s : String) : Bool :=
  let cs := s.toList
  let data := cs.takeWhile (fun c => c != '=')
  data.all (fun c => (b64charVal c).isSome) && cs.length % 4 == 0 &&
    (cs.length - data.length ≤ 2) && (cs.drop data.length).all (fun c => c == '=')

/-! ## os.path.join and dict.get -/

/-- POSIX `os.path.join` on two components: an absolute second component
wins; otherwise a separator is inserted unless the first component is empty
or already ends in one. -/
def os_path_join (a b : String) : String :=
  if b.toList.head? = some '/' then b
  else if a = "" ∨ a.toList.getLast? = some '/' then a ++ b
  else a ++ "/" ++ b

/-- Python `d.get(k, default)` for a string-valued JSON object modelled as an
association list (keys unique, as in a Python dict). -/
def dictGet (d : List (String × String)) (k default : String) : String :=
  match d.find? (fun p => p.1 == k) with
  | some p => p.2
  | none => default

/-! ## The data model: images, boxes, results, model handles -/

/-- PIL `Image.Image`: an in-memory raster, modelled by its pixel array
(rows × columns × channel values). -/
structure PILImage where
  raster : List (List (List Nat))

/-- PIL `Image.fromarray`: wraps a pixel array as an in-memory image. -/
def Image_fromarray (a : List (List (List Nat))) : PILImage :=
  ⟨a⟩

/-- One detected box of an ultralytics result. Iterating `result.boxes`
yields per-box objects whose `xyxy` attribute is a tensor of shape (1, 4)
holding the four corner coordinates, whose `conf` attribute is a tensor of
shape (1,) holding the confidence, and whose `cls` attribute holds the
(integral) class index, extracted by the code as `int(box.cls.item())`. -/
structure Box where
  x1 : ℚ
  y1 : ℚ
  x2 : ℚ
  y2 : ℚ
  conf : ℚ
  cls : Int

/-- torch `Tensor.tolist` on `box.xyxy`, a tensor of shape (1, 4): a list
containing one list of the four coordinates. -/
def Box.xyxy_tolist (b : Box) : List (List ℚ) :=
  [[b.x1, b.y1, b.x2, b.y2]]

/-- torch `Tensor.tolist` on `box.conf`, a tensor of shape (1,): a
one-element list holding the confidence. -/
def Box.conf_tolist (b : Box) : List ℚ :=
  [b.conf]

/-- One ultralytics inference result (`output[0]`): its `boxes` attribute
(`None` or a sequence of boxes), its class-index-to-name table `names`, and
the annotated pixel array returned by its `plot()` visualization routine. -/
structure YoloResult where
  boxes : Option (List Box)
  names : Int → String
  plot : List (List (List Nat))

/-- A loaded `YOLO` model handle: the metadata attributes read by
`get_models` (`ckpt_path`, `ckpt["date"]`, `task`) and the inference
behavior of calling the handle on an image (a list of results, one per
image of the batch). -/
structure ModelHandle where
  ckpt_path : String
  ckpt_date : String
  task : String
  run : PILImage → List YoloResult

/-- The fields of the `Model` object (`__init__` stores the configuration
strings and initializes both model handles to `None`). `data_dir` holds
`str(self._data_dir)` as used by `load`. -/
structure ModelState where
  model_name : String
  data_dir : String
  model_binary_dir : String
  detection_model : Option ModelHandle
  segmentation_model : Option ModelHandle

/-- `Model.__init__`: stores the configuration and leaves both model
handles `None`. -/
def Model.init (data_dir model_binary_dir : String) : ModelState :=
  { model_name := "yolo"
    data_dir := data_dir
    model_binary_dir := model_binary_dir
    detection_model := none
    segmentation_model := none }

/-- The detection artifact path `load` checks:
`os.path.join(os.path.join(data_dir, model_binary_dir), "yolo26n.pt")`. -/
def detectionPath (m : ModelState) : String :=
  os_path_join (os_path_join m.data_dir m.model_binary_dir) "yolo26n.pt"

/-- The segmentation artifact path `load` checks. -/
def segmentationPath (m : ModelState) : String :=
  os_path_join (os_path_join m.data_dir m.model_binary_dir) "yolo26n-seg.pt"

/-- `Model.load`. `fs` is `os.path.exists`; `yolo` models the `YOLO(path)`
constructor of the inference library. The first component of the result is
the list of paths passed to `YOLO`, in order, recording which model loads
were attempted; the second is the updated object state or the exception. -/
def Model.load (m : ModelState) (fs : String → Bool)
    (yolo : String → ModelHandle) :
    List String × Except PyError ModelState :=
  let base_path := os_path_join m.data_dir m.model_binary_dir
  let detection_model_filepath := os_path_join base_path "yolo26n.pt"
  let segmentation_model_filepath := os_path_join base_path "yolo26n-seg.pt"
  if !(fs detection_model_filepath) then
    ([], .error (.fileNotFoundError
      ("Detection model file " ++ detection_model_filepath ++ " not found")))
  else if !(fs segmentation_model_filepath) then
    ([], .error (.fileNotFoundError
      ("Segmentation model file " ++ segmentation_model_filepath ++ " not found")))
  else
    ([detection_model_filepath, segmentation_model_filepath],
     .ok { m with
            detection_model := some (yolo detection_model_filepath)
            segmentation_model := some (yolo segmentation_model_filepath) })

/-! ## Request decoder -/

/-- The two library operations `get_image_from_input` can perform after its
emptiness check, in order: `base64.b64decode` and
`PIL.Image.open(io.BytesIO(...))`. -/
inductive DecodeStep where
  | b64decodeStep
  | imageOpenStep
deriving DecidableEq

/-- `Model.get_image_from_input`. `imopen` models
`PIL.Image.open(io.BytesIO(bytes))`, a parameter because image-container
rasterization is external to this code; `base64.b64decode` is modelled by
`pyB64decode`. The first component of the result lists the library
operations that were performed, in order. -/
def get_image_from_input (imopen : List Nat → Except PyError PILImage)
    (model_input : List (String × String)) :
    List DecodeStep × Except PyError PILImage :=
  let image_base64 := dictGet model_input "image_base64" ""
  if image_base64 = "" then
    ([], .error (.valueError "image_base64 is required"))
  else
    match pyB64decode image_base64 with
    | .error e => ([.b64decodeStep], .error e)
    | .ok bytes =>
      match imopen bytes with
      | .error e => ([.b64decodeStep, .imageOpenStep], .error e)
      | .ok img => ([.b64decodeStep, .imageOpenStep], .ok img)

/-! ## The three request handlers

Each handler returns the post-call object state as its first component; the
source assigns to no `self` field in these methods, so the state passes
through unchanged. Calling a handle that is still `None` raises the
corresponding Python null-attribute/call error, as in the source, which has
no explicit initialization guard. -/

/-- `Model.get_models`: metadata of the two loaded handles. Accessing
`self.detection_model.ckpt_path` first, it raises `AttributeError` on a
`None` handle (detection checked first by evaluation order). -/
def get_models (m : ModelState) :
    ModelState × Except PyError JsonVal :=
  match m.detection_model with
  | none => (m, .error (.attributeError
      "'NoneType' object has no attribute 'ckpt_path'"))
  | some detection_model =>
    match m.segmentation_model with
    | none => (m, .error (.attributeError
        "'NoneType' object has no attribute 'ckpt_path'"))
    | some segmentation_model =>
      (m, .ok (.obj [("models", .arr
        [ .obj [("name", .str "yolo26n"),
                ("checkpoint", .str detection_model.ckpt_path),
                ("date", .str detection_model.ckpt_date),
                ("task", .str detection_model.task)],
          .obj [("name", .str "yolo26n-seg"),
                ("checkpoint", .str segmentation_model.ckpt_path),
                ("date", .str segmentation_model.ckpt_date),
                ("task", .str segmentation_model.task)]])]))

/-- `Model.detect_image`: decode the input image, run the detection model,
take the first result, and format each box of `result.boxes` (when present
and non-empty) as `{bbox: box.xyxy.tolist(), confidence: box.conf.tolist(),
label: result.names[int(box.cls.item())]}`. -/
def detect_image (m : ModelState)
    (imopen : List Nat → Except PyError PILImage)
    (model_input : List (String × String)) :
    ModelState × Except PyError JsonVal :=
  match get_image_from_input imopen model_input with
  | (_, .error e) => (m, .error e)
  | (_, .ok image) =>
    match m.detection_model with
    | none => (m, .error (.typeError "'NoneType' object is not callable"))
    | some detection_model =>
      match detection_model.run image with
      | [] => (m, .error (.indexError "list index out of range"))
      | result :: _ =>
        let predictions : List JsonVal :=
          match result.boxes with
          | none => []
          | some boxes =>
            if boxes.length > 0 then
              boxes.map (fun box =>
                .obj [("bbox", .arr ((Box.xyxy_tolist box).map
                         (fun l => .arr (l.map JsonVal.num)))),
                      ("confidence", .arr ((Box.conf_tolist box).map
                         JsonVal.num)),
                      ("label", .str (result.names box.cls))])
            else []
        (m, .ok (.obj [("predictions", .arr predictions)]))

/-- `Model.segment_image`: decode the input image, run the segmentation
model, take the first result, render its annotated array
(`Image.fromarray(result.plot())`), save it as WEBP to
`/tmp/seg_image_{uuid4().hex}.webp`, read the file's bytes back and
base64-encode them. `webpSave` models PIL's WEBP encoder (the bytes
`seg_image.save` writes for the image); `uuidHex` models `uuid.uuid4().hex`;
`fs` maps each path to the bytes of the file there, and the updated
filesystem is returned alongside the state and the response. -/
def segment_image (m : ModelState)
    (imopen : List Nat → Except PyError PILImage)
    (webpSave : PILImage → List Nat)
    (uuidHex : String)
    (fs : String → Option (List Nat))
    (model_input : List (String × String)) :
    ModelState × (String → Option (List Nat)) × Except PyError JsonVal :=
  match get_image_from_input imopen model_input with
  | (_, .error e) => (m, fs, .error e)
  | (_, .ok image) =>
    match m.segmentation_model with
    | none => (m, fs, .error (.typeError "'NoneType' object is not callable"))
    | some segmentation_model =>
      match segmentation_model.run image with
      | [] => (m, fs, .error (.indexError "list index out of range"))
      | result :: _ =>
        let seg_image := Image_fromarray result.plot
        let unique_name := "/tmp/seg_image_" ++ uuidHex ++ ".webp"
        let fs1 : String → Option (List Nat) :=
          fun p => if p = unique_name then some (webpSave seg_image) else fs p
        match fs1 unique_name with
        | none => (m, fs1, .error (.fileNotFoundError unique_name))
        | some bytes =>
          let return_image := b64encode bytes
          (m, fs1, .ok (.obj [("segmented_image", .str return_image)]))

/-! ## base64 lemmas: lenient decoding inverts encoding -/

theorem b64charVal_b64char : ∀ v, v < 64 → b64charVal (b64char v) = some v := by
  decide

theorem b64char_beq_pad : ∀ v, v < 64 → (b64char v == '=') = false := by
  decide

theorem a2b_quad_step (b1 b2 b3 : Nat) (rest : List Char) (acc : List Nat)
    (h1 : b1 < 256) (h2 : b2 < 256) (h3 : b3 < 256) :
    a2b_base64 (b64char (b1 / 4) :: b64char (b1 % 4 * 16 + b2 / 16) ::
        b64char (b2 % 16 * 4 + b3 / 64) :: b64char (b3 % 64) :: rest)
      0 0 0 acc = a2b_base64 rest 0 0 0 (acc ++ [b1, b2, b3]) := by
  have hv1 : b1 / 4 < 64 := by omega
  have hv2 : b1 % 4 * 16 + b2 / 16 < 64 := by omega
  have hv3 : b2 % 16 * 4 + b3 / 64 < 64 := by omega
  have hv4 : b3 % 64 < 64 := by omega
  have e1 : b1 / 4 * 4 + (b1 % 4 * 16 + b2 / 16) / 16 = b1 := by omega
  have e2 : (b1 % 4 * 16 + b2 / 16) % 16 * 16 + (b2 % 16 * 4 + b3 / 64) / 4
      = b2 := by omega
  have e3 : (b2 % 16 * 4 + b3 / 64) % 4 * 64 + b3 % 64 = b3 := by omega
  simp [a2b_base64, b64char_beq_pad _ hv1, b64charVal_b64char _ hv1,
    b64char_beq_pad _ hv2, b64charVal_b64char _ hv2,
    b64char_beq_pad _ hv3, b64charVal_b64char _ hv3,
    b64char_beq_pad _ hv4, b64charVal_b64char _ hv4, e1, e2, e3]

theorem a2b_two_step (b1 : Nat) (acc : List Nat) (h1 : b1 < 256) :
    a2b_base64 [b64char (b1 / 4), b64char (b1 % 4 * 16), '=', '='] 0 0 0 acc
      = .ok (acc ++ [b1]) := by
  have hv1 : b1 / 4 < 64 := by omega
  have hv2 : b1 % 4 * 16 < 64 := by omega
  simp [a2b_base64, b64char_beq_pad _ hv1, b64charVal_b64char _ hv1,
    b64char_beq_pad _ hv2, b64charVal_b64char _ hv2]
  omega

theorem a2b_three_step (b1 b2 : Nat) (acc : List Nat)
    (h1 : b1 < 256) (h2 : b2 < 256) :
    a2b_base64 [b64char (b1 / 4), b64char (b1 % 4 * 16 + b2 / 16),
        b64char (b2 % 16 * 4), '='] 0 0 0 acc = .ok (acc ++ [b1, b2]) := by
  have hv1 : b1 / 4 < 64 := by omega
  have hv2 : b1 % 4 * 16 + b2 / 16 < 64 := by omega
  have hv3 : b2 % 16 * 4 < 64 := by omega
  have e1 : b1 / 4 * 4 + (b1 % 4 * 16 + b2 / 16) / 16 = b1 := by omega
  simp [a2b_base64, b64char_beq_pad _ hv1, b64charVal_b64char _ hv1,
    b64char_beq_pad _ hv2, b64charVal_b64char _ hv2,
    b64char_beq_pad _ hv3, b64charVal_b64char _ hv3, e1]
  omega

/-- The `a2b_base64` scan, started fresh, maps the encoding of any byte
sequence to those bytes appended to the accumulator. -/
theorem a2b_encode : ∀ bs acc : List Nat, (∀ b ∈ bs, b < 256) →
    a2b_base64 (b64encodeList bs) 0 0 0 acc = .ok (acc ++ bs)
  | [], acc, _ => by simp [b64encodeList, a2b_base64]
  | [b1], acc, h => a2b_two_step b1 acc (h b1 (by simp))
  | [b1, b2], acc, h =>
      a2b_three_step b1 b2 acc (h b1 (by simp)) (h b2 (by simp))
  | b1 :: b2 :: b3 :: rest, acc, h => by
      have hb1 : b1 < 256 := h b1 (by simp)
      have hb2 : b2 < 256 := h b2 (by simp)
      have hb3 : b3 < 256 := h b3 (by simp)
      have ih := a2b_encode rest (acc ++ [b1, b2, b3])
        (fun b hb => h b (by simp [hb]))
      rw [show b64encodeList (b1 :: b2 :: b3 :: rest) =
            b64char (b1 / 4) :: b64char (b1 % 4 * 16 + b2 / 16) ::
            b64char (b2 % 16 * 4 + b3 / 64) :: b64char (b3 % 64) ::
            b64encodeList rest from rfl,
        a2b_quad_step b1 b2 b3 (b64encodeList rest) acc hb1 hb2 hb3, ih]
      simp

/-- Decoding inverts encoding: Python's lenient `b64decode` recovers any
byte sequence from its `b64encode` text. -/
theorem pyB64_roundtrip (bs : List Nat) (h : ∀ b ∈ bs, b < 256) :
    pyB64decode (b64encode bs) = .ok bs := by
  show pyB64decodeList (b64encodeList bs) = .ok bs
  unfold pyB64decodeList
  simpa using a2b_encode bs [] h

/-- Decoder fidelity on a CPython edge case: a single pad after two data
characters cannot complete the quad, so `YQ=` raises Incorrect padding. -/
theorem pyB64decode_single_pad_short :
    pyB64decode "YQ=" = .error (.binasciiError "Incorrect padding") := rfl

/-- Decoder fidelity on a CPython edge case: a pad seen before two data
characters of the current quad is ignored and decoding continues, so
`a=bcd` decodes exactly like `abcd`. -/
theorem pyB64decode_skips_early_pad :
    pyB64decode "a=bcd" = .ok [105, 183, 29] ∧
    pyB64decode "abcd" = .ok [105, 183, 29] :=
  ⟨rfl, rfl⟩

theorem b64encodeList_ne_nil : ∀ bs : List Nat, bs ≠ [] → b64encodeList bs ≠ []
  | [], hne => absurd rfl hne
  | [_], _ => by simp [b64encodeList]
  | [_, _], _ => by simp [b64encodeList]
  | _ :: _ :: _ :: _, _ => by simp [b64encodeList]

theorem b64encode_ne_empty (bs : List Nat) (hne : bs ≠ []) :
    b64encode bs ≠ "" := by
  intro hcontra
  have hnil : b64encodeList bs = [] := congrArg String.data hcontra
  exact b64encodeList_ne_nil bs hne hnil

/-! ## Sample library behaviors and states used by concrete instances -/

/-- A sample image-open routine accepting any byte payload. -/
def imopenOk : List Nat → Except PyError PILImage :=
  fun bs => .ok ⟨[[bs]]⟩

/-- A sample image-open routine modelling PIL rejecting bytes that are not a
valid image container. -/
def imopenReject : List Nat → Except PyError PILImage :=
  fun _ => .error (.unidentifiedImageError "cannot identify image file")

/-- A sample `YOLO` constructor. -/
def sampleYolo : String → ModelHandle :=
  fun p => { ckpt_path := p, ckpt_date := "2026-01-01", task := "detect",
             run := fun _ => [] }

/-- The state produced by a successful sample `load` from `data_dir = "d"`,
`model_binary_dir = "m"`. -/
def loadedSample : ModelState :=
  { model_name := "yolo", data_dir := "d", model_binary_dir := "m",
    detection_model := some (sampleYolo "d/m/yolo26n.pt"),
    segmentation_model := some (sampleYolo "d/m/yolo26n-seg.pt") }

/-! ## C3: missing or empty `image_base64` -/

/-- C3: for every input object in which the `image_base64` field is absent
or is the empty string, `get_image_from_input` fails with the
invalid-argument error `ValueError "image_base64 is required"` and performs
neither base64 decoding nor image rasterization (its step log is empty). -/
theorem missing_or_empty_image_base64_rejected
    (imopen : List Nat → Except PyError PILImage)
    (model_input : List (String × String))
    (h : dictGet model_input "image_base64" "" = "") :
    get_image_from_input imopen model_input =
      ([], .error (.valueError "image_base64 is required")) := by
  simp [get_image_from_input, h]

theorem missing_or_empty_image_base64_rejected_witness :
    get_image_from_input imopenOk [] =
      ([], .error (.valueError "image_base64 is required")) :=
  missing_or_empty_image_base64_rejected imopenOk [] rfl

/-! ## C10: non-empty strings that are not valid base64 -/

/-- C10 counterexample: `"!!!!"` is a non-empty string that is not valid
base64, yet Python's lenient decoder discards the out-of-alphabet
characters and succeeds with empty bytes, so `get_image_from_input` goes on
to attempt rasterization and fails there (the image-container error), not
at the base64 decoding step. -/
theorem invalid_base64_not_always_b64_error_cex :
    isStrictBase64 "!!!!" = false ∧
    pyB64decode "!!!!" = .ok [] ∧
    get_image_from_input imopenReject [("image_base64", "!!!!")] =
      ([DecodeStep.b64decodeStep, DecodeStep.imageOpenStep],
        .error (.unidentifiedImageError "cannot identify image file")) :=
  ⟨rfl, rfl, rfl⟩

/-- C10 (amended): for every input whose `image_base64` field is a non-empty
string on which Python's base64 decoder fails (its lenient decoding first
discards characters outside the alphabet, so not every invalid-base64
string fails here), `get_image_from_input` raises that base64 error before
any image rasterization is attempted. -/
theorem b64_error_stops_before_raster
    (imopen : List Nat → Except PyError PILImage)
    (model_input : List (String × String)) (s : String) (e : PyError)
    (hs : dictGet model_input "image_base64" "" = s) (hne : s ≠ "")
    (hdec : pyB64decode s = .error e) :
    get_image_from_input imopen model_input =
      ([DecodeStep.b64decodeStep], .error e) := by
  simp [get_image_from_input, hs, hne, hdec]

theorem b64_error_stops_before_raster_witness :
    get_image_from_input imopenOk [("image_base64", "a")] =
      ([DecodeStep.b64decodeStep], .error (.binasciiError
        "Invalid base64-encoded string: number of data characters cannot be 1 more than a multiple of 4")) :=
  b64_error_stops_before_raster imopenOk [("image_base64", "a")] "a" _
    rfl (by decide) rfl

/-! ## C2: the two artifact paths checked by `load` -/

/-- C2: `load` checks exactly the two fixed artifact paths
`<data_dir>/<model_binary_dir>/yolo26n.pt` and `.../yolo26n-seg.pt`: if the
detection file is absent it fails at once with a `FileNotFoundError` whose
message names that file, passing no path to the `YOLO` loader; if the
detection file exists and the segmentation file is absent it fails likewise
naming the segmentation file; and its result depends on the filesystem only
through those two paths. -/
theorem load_checks_two_paths (m : ModelState) (fs : String → Bool)
    (yolo : String → ModelHandle) :
    (fs (detectionPath m) = false →
      Model.load m fs yolo = ([], .error (.fileNotFoundError
        ("Detection model file " ++ detectionPath m ++ " not found")))) ∧
    (fs (detectionPath m) = true → fs (segmentationPath m) = false →
      Model.load m fs yolo = ([], .error (.fileNotFoundError
        ("Segmentation model file " ++ segmentationPath m ++ " not found")))) ∧
    (∀ fs' : String → Bool,
      fs (detectionPath m) = fs' (detectionPath m) →
      fs (segmentationPath m) = fs' (segmentationPath m) →
      Model.load m fs yolo = Model.load m fs' yolo) := by
  refine ⟨fun h1 => ?_, fun h1 h2 => ?_, fun fs' h1 h2 => ?_⟩
  · simp [Model.load, detectionPath] at h1 ⊢
    simp [h1]
  · simp [Model.load, detectionPath, segmentationPath] at h1 h2 ⊢
    simp [h1, h2]
  · simp only [detectionPath] at h1
    simp only [segmentationPath] at h2
    simp only [Model.load]
    rw [h1, h2]

theorem load_checks_two_paths_witness :
    Model.load (Model.init "d" "m") (fun _ => false) sampleYolo =
      ([], .error (.fileNotFoundError
        "Detection model file d/m/yolo26n.pt not found")) :=
  (load_checks_two_paths (Model.init "d" "m") (fun _ => false) sampleYolo).1
    rfl

/-! ## C5: `get_models` before and after `load` -/

/-- C5 counterexample: on the freshly initialized state (before `load`),
`get_models` fails with `AttributeError` from accessing `ckpt_path` on the
`None` detection handle — which is not the spec's `UninitializedModel`
error. -/
theorem get_models_before_load_not_uninitialized_cex :
    (get_models (Model.init "d" "m")).2 = .error (.attributeError
      "'NoneType' object has no attribute 'ckpt_path'") ∧
    (PyError.attributeError
      "'NoneType' object has no attribute 'ckpt_path'").isUninitializedModel
      = false :=
  ⟨rfl, rfl⟩

/-- C5 (amended): after `load` has completed, `get_models` returns exactly
two entries, the first named `yolo26n` and the second `yolo26n-seg`; called
before `load` completes (on the freshly initialized state) it fails with an
`AttributeError` from the `None` handle — a null-attribute failure, not a
dedicated `UninitializedModel` error. -/
theorem get_models_two_entries (dd mbd : String)
    (m0 m : ModelState) (fs : String → Bool) (yolo : String → ModelHandle)
    (log : List String)
    (hload : Model.load m0 fs yolo = (log, .ok m)) :
    (∃ e1 e2 : List (String × JsonVal),
      (get_models m).2 = .ok (.obj [("models", .arr [.obj e1, .obj e2])]) ∧
      e1.head? = some ("name", .str "yolo26n") ∧
      e2.head? = some ("name", .str "yolo26n-seg")) ∧
    ((get_models (Model.init dd mbd)).2 = .error (.attributeError
        "'NoneType' object has no attribute 'ckpt_path'") ∧
      (PyError.attributeError
        "'NoneType' object has no attribute 'ckpt_path'").isUninitializedModel
        = false) := by
  refine ⟨?_, rfl, rfl⟩
  simp only [Model.load] at hload
  split_ifs at hload with h1 h2
  · simp at hload
  · simp at hload
  · simp only [Prod.mk.injEq, Except.ok.injEq] at hload
    obtain ⟨-, hm⟩ := hload
    rw [← hm]
    exact ⟨_, _, rfl, rfl, rfl⟩

theorem get_models_two_entries_witness :
    (∃ e1 e2 : List (String × JsonVal),
      (get_models loadedSample).2 =
        .ok (.obj [("models", .arr [.obj e1, .obj e2])]) ∧
      e1.head? = some ("name", .str "yolo26n") ∧
      e2.head? = some ("name", .str "yolo26n-seg")) ∧
    ((get_models (Model.init "d" "m")).2 = .error (.attributeError
        "'NoneType' object has no attribute 'ckpt_path'") ∧
      (PyError.attributeError
        "'NoneType' object has no attribute 'ckpt_path'").isUninitializedModel
        = false) :=
  get_models_two_entries "d" "m" (Model.init "d" "m") loadedSample
    (fun _ => true) sampleYolo ["d/m/yolo26n.pt", "d/m/yolo26n-seg.pt"] rfl

/-! ## C4 and C9: detection with zero or absent boxes -/

/-- A detection result with an empty box list. -/
def emptyBoxResult : YoloResult :=
  { boxes := some [], names := fun _ => "person", plot := [[[0]]] }

/-- A detection result whose `boxes` attribute is `None`. -/
def noneBoxResult : YoloResult :=
  { boxes := none, names := fun _ => "person", plot := [[[0]]] }

/-- A detection handle reporting an empty box list on every image. -/
def emptyBoxHandle : ModelHandle :=
  { ckpt_path := "p", ckpt_date := "dt", task := "detect",
    run := fun _ => [emptyBoxResult] }

/-- A detection handle reporting `boxes = None` on every image. -/
def noneBoxHandle : ModelHandle :=
  { ckpt_path := "p", ckpt_date := "dt", task := "detect",
    run := fun _ => [noneBoxResult] }

/-- A loaded state whose detection graph reports an empty box list. -/
def detectStateEmpty : ModelState :=
  { Model.init "d" "m" with detection_model := some emptyBoxHandle }

/-- A loaded state whose detection graph reports `boxes = None`. -/
def detectStateNone : ModelState :=
  { Model.init "d" "m" with detection_model := some noneBoxHandle }

/-- C4: when the detection graph reports zero boxes for the decoded image,
`detect_image` returns `{predictions: []}` successfully rather than
raising an error. -/
theorem detect_zero_boxes_empty_predictions
    (m : ModelState) (dm : ModelHandle)
    (imopen : List Nat → Except PyError PILImage)
    (model_input : List (String × String))
    (steps : List DecodeStep) (image : PILImage)
    (r : YoloResult) (rs : List YoloResult)
    (hm : m.detection_model = some dm)
    (himg : get_image_from_input imopen model_input = (steps, .ok image))
    (hrun : dm.run image = r :: rs)
    (hboxes : r.boxes = some []) :
    detect_image m imopen model_input =
      (m, .ok (.obj [("predictions", .arr [])])) := by
  simp [detect_image, himg, hm, hrun, hboxes]

theorem detect_zero_boxes_empty_predictions_witness :
    detect_image detectStateEmpty imopenOk [("image_base64", "aGk=")] =
      (detectStateEmpty, .ok (.obj [("predictions", .arr [])])) :=
  detect_zero_boxes_empty_predictions detectStateEmpty emptyBoxHandle
    imopenOk [("image_base64", "aGk=")]
    [DecodeStep.b64decodeStep, DecodeStep.imageOpenStep] ⟨[[[104, 105]]]⟩
    emptyBoxResult [] rfl rfl rfl rfl

/-- C9: when the detection graph's first result reports its `boxes`
attribute as `None`, `detect_image` returns `{predictions: []}`
successfully, the same as for a zero-length box list. -/
theorem detect_none_boxes_empty_predictions
    (m : ModelState) (dm : ModelHandle)
    (imopen : List Nat → Except PyError PILImage)
    (model_input : List (String × String))
    (steps : List DecodeStep) (image : PILImage)
    (r : YoloResult) (rs : List YoloResult)
    (hm : m.detection_model = some dm)
    (himg : get_image_from_input imopen model_input = (steps, .ok image))
    (hrun : dm.run image = r :: rs)
    (hboxes : r.boxes = none) :
    detect_image m imopen model_input =
      (m, .ok (.obj [("predictions", .arr [])])) := by
  simp [detect_image, himg, hm, hrun, hboxes]

theorem detect_none_boxes_empty_predictions_witness :
    detect_image detectStateNone imopenOk [("image_base64", "aGk=")] =
      (detectStateNone, .ok (.obj [("predictions", .arr [])])) :=
  detect_none_boxes_empty_predictions detectStateNone noneBoxHandle
    imopenOk [("image_base64", "aGk=")]
    [DecodeStep.b64decodeStep, DecodeStep.imageOpenStep] ⟨[[[104, 105]]]⟩
    noneBoxResult [] rfl rfl rfl rfl

/-! ## C1: the shape of each prediction -/

/-- The shape asserted by the spec for one prediction: a flat list of
exactly four floats for `bbox`, a single float in [0,1] for `confidence`,
and a string `label`. -/
def claimedPredShape : JsonVal → Bool
  | .obj [("bbox", .arr coords), ("confidence", .num c), ("label", .str _)] =>
      coords.length == 4 && coords.all isNum &&
        decide (0 ≤ c) && decide (c ≤ 1)
  | _ => false

/-- The shape the source actually produces for one prediction: `bbox` is a
list containing one list of exactly four floats (the (1,4) tensor's
`tolist`), `confidence` is a one-element list holding a float in [0,1], and
`label` is a string. -/
def producedPredShape : JsonVal → Bool
  | .obj [("bbox", .arr [.arr coords]), ("confidence", .arr [.num c]),
          ("label", .str _)] =>
      coords.length == 4 && coords.all isNum &&
        decide (0 ≤ c) && decide (c ≤ 1)
  | _ => false

/-- A box detected with confidence 1/2 at coordinates (1,2,3,4). -/
def cexBox : Box :=
  { x1 := 1, y1 := 2, x2 := 3, y2 := 4, conf := 1/2, cls := 0 }

/-- A detection result reporting exactly the one box `cexBox`. -/
def cexResult : YoloResult :=
  { boxes := some [cexBox], names := fun _ => "person", plot := [[[0]]] }

/-- A detection handle reporting exactly the one box of `cexResult`. -/
def cexHandle : ModelHandle :=
  { ckpt_path := "p", ckpt_date := "dt", task := "detect",
    run := fun _ => [cexResult] }

/-- A loaded state whose detection graph reports exactly one box. -/
def cexDetectState : ModelState :=
  { Model.init "d" "m" with detection_model := some cexHandle }

/-- C1 counterexample: on an image with one reported box, the prediction
returned by `detect_image` has `bbox = [[1,2,3,4]]` (a singleton list whose
element is the list of four floats, from `box.xyxy.tolist()` on the (1,4)
tensor) and `confidence = [1/2]` (a one-element list, from
`box.conf.tolist()`), so it does not have the claimed flat shape. -/
theorem detect_bbox_not_flat_cex :
    (detect_image cexDetectState imopenOk [("image_base64", "aGk=")]).2 =
      .ok (.obj [("predictions", .arr [
        .obj [("bbox", .arr [.arr [.num 1, .num 2, .num 3, .num 4]]),
              ("confidence", .arr [.num (1/2)]),
              ("label", .str "person")]])]) ∧
    claimedPredShape
      (.obj [("bbox", .arr [.arr [.num 1, .num 2, .num 3, .num 4]]),
             ("confidence", .arr [.num (1/2)]),
             ("label", .str "person")]) = false :=
  ⟨rfl, rfl⟩

/-- C1 (amended): for every image on which the detection graph reports at
least zero boxes, every element of the predictions list returned by
`detect_image` has the shape `{bbox: a list containing one list of exactly
four floats, confidence: a one-element list holding a float in [0,1],
label: a string}` (the confidence bound is the detection graph's guarantee
on its scores). -/
theorem detect_prediction_nested_shape
    (m : ModelState) (dm : ModelHandle)
    (imopen : List Nat → Except PyError PILImage)
    (model_input : List (String × String))
    (m' : ModelState) (j : JsonVal)
    (hm : m.detection_model = some dm)
    (hconf : ∀ img : PILImage, ∀ r ∈ dm.run img, ∀ bs, r.boxes = some bs →
      ∀ b ∈ bs, 0 ≤ b.conf ∧ b.conf ≤ 1)
    (hcall : detect_image m imopen model_input = (m', .ok j)) :
    ∃ preds : List JsonVal,
      j = .obj [("predictions", .arr preds)] ∧
      ∀ p ∈ preds, producedPredShape p = true := by
  rcases hgi : get_image_from_input imopen model_input with ⟨steps, res⟩
  cases res with
  | error e =>
      simp [detect_image, hgi] at hcall
  | ok image =>
      simp only [detect_image, hgi, hm] at hcall
      rcases hrun : dm.run image with _ | ⟨r, rs⟩
      · rw [hrun] at hcall
        simp at hcall
      · rw [hrun] at hcall
        simp only [Prod.mk.injEq, Except.ok.injEq] at hcall
        obtain ⟨-, hj⟩ := hcall
        refine ⟨_, hj.symm, ?_⟩
        intro p hp
        have hr : r ∈ dm.run image := by
          rw [hrun]
          exact List.mem_cons_self r rs
        rcases hb : r.boxes with _ | bs
        · simp [hb] at hp
        · by_cases hlen : bs.length > 0
          · simp only [hb, hlen, if_true] at hp
            obtain ⟨b, hbmem, hpeq⟩ := List.mem_map.mp hp
            obtain ⟨h0, h1⟩ := hconf image r hr bs hb b hbmem
            rw [← hpeq]
            simp [producedPredShape, Box.xyxy_tolist, Box.conf_tolist,
              isNum, h0, h1]
          · simp [hb, hlen] at hp

theorem detect_prediction_nested_shape_witness :
    ∃ preds : List JsonVal,
      (JsonVal.obj [("predictions", .arr [
        .obj [("bbox", .arr [.arr [.num 1, .num 2, .num 3, .num 4]]),
              ("confidence", .arr [.num (1/2)]),
              ("label", .str "person")]])]) =
        .obj [("predictions", .arr preds)] ∧
      ∀ p ∈ preds, producedPredShape p = true :=
  detect_prediction_nested_shape cexDetectState cexHandle
    imopenOk [("image_base64", "aGk=")] cexDetectState
    (.obj [("predictions", .arr [
        .obj [("bbox", .arr [.arr [.num 1, .num 2, .num 3, .num 4]]),
              ("confidence", .arr [.num (1/2)]),
              ("label", .str "person")]])])
    rfl
    (by
      intro img r hr bs hbs b hb
      simp [cexHandle] at hr
      subst hr
      simp [cexResult] at hbs
      subst hbs
      simp at hb
      subst hb
      constructor <;> norm_num [cexBox])
    rfl

/-! ## C8: no handler mutates the model handles -/

theorem get_models_state (m : ModelState) : (get_models m).1 = m := by
  unfold get_models
  repeat' split
  all_goals rfl

theorem detect_image_state (m : ModelState)
    (imopen : List Nat → Except PyError PILImage)
    (model_input : List (String × String)) :
    (detect_image m imopen model_input).1 = m := by
  unfold detect_image
  repeat' split
  all_goals rfl

theorem segment_image_state (m : ModelState)
    (imopen : List Nat → Except PyError PILImage)
    (webpSave : PILImage → List Nat) (uuidHex : String)
    (fs : String → Option (List Nat))
    (model_input : List (String × String)) :
    (segment_image m imopen webpSave uuidHex fs model_input).1 = m := by
  unfold segment_image
  repeat' split
  any_goals rfl
  all_goals dsimp only
  all_goals split
  all_goals rfl

/-- C8: for every call to `get_models`, `detect_image` or `segment_image`
after `load` has completed, the model-handle fields of the state
(`detection_model` and `segmentation_model`) are unchanged by the call. -/
theorem handlers_preserve_model_handles
    (m0 m : ModelState) (fs : String → Bool) (yolo : String → ModelHandle)
    (log : List String)
    (imopen : List Nat → Except PyError PILImage)
    (webpSave : PILImage → List Nat) (uuidHex : String)
    (fsb : String → Option (List Nat))
    (model_input : List (String × String))
    (_hload : Model.load m0 fs yolo = (log, .ok m)) :
    ((get_models m).1.detection_model = m.detection_model ∧
      (get_models m).1.segmentation_model = m.segmentation_model) ∧
    ((detect_image m imopen model_input).1.detection_model
        = m.detection_model ∧
      (detect_image m imopen model_input).1.segmentation_model
        = m.segmentation_model) ∧
    ((segment_image m imopen webpSave uuidHex fsb model_input).1.detection_model
        = m.detection_model ∧
      (segment_image m imopen webpSave uuidHex fsb model_input).1.segmentation_model
        = m.segmentation_model) := by
  rw [get_models_state, detect_image_state, segment_image_state]
  exact ⟨⟨rfl, rfl⟩, ⟨rfl, rfl⟩, ⟨rfl, rfl⟩⟩

theorem handlers_preserve_model_handles_witness :
    ((get_models loadedSample).1.detection_model
        = loadedSample.detection_model ∧
      (get_models loadedSample).1.segmentation_model
        = loadedSample.segmentation_model) ∧
    ((detect_image loadedSample imopenOk []).1.detection_model
        = loadedSample.detection_model ∧
      (detect_image loadedSample imopenOk []).1.segmentation_model
        = loadedSample.segmentation_model) ∧
    ((segment_image loadedSample imopenOk (fun _ => [82]) "u" (fun _ => none)
        []).1.detection_model = loadedSample.detection_model ∧
      (segment_image loadedSample imopenOk (fun _ => [82]) "u" (fun _ => none)
        []).1.segmentation_model = loadedSample.segmentation_model) :=
  handlers_preserve_model_handles (Model.init "d" "m") loadedSample
    (fun _ => true) sampleYolo ["d/m/yolo26n.pt", "d/m/yolo26n-seg.pt"]
    imopenOk (fun _ => [82]) "u" (fun _ => none) [] rfl

/-! ## C6 and C7: the segmentation response and its temporary file -/

/-- Inversion of a successful `segment_image` call: the object state is
unchanged, the response is the base64 text of the WEBP bytes of the rendered
annotated image, and the filesystem is the old one with exactly the
temporary file `/tmp/seg_image_{uuid}.webp` now holding those bytes. -/
theorem segment_image_ok
    (m m' : ModelState)
    (imopen : List Nat → Except PyError PILImage)
    (webpSave : PILImage → List Nat) (uuidHex : String)
    (fs fs' : String → Option (List Nat))
    (model_input : List (String × String)) (j : JsonVal)
    (hcall : segment_image m imopen webpSave uuidHex fs model_input =
      (m', fs', .ok j)) :
    ∃ img : PILImage,
      m' = m ∧
      j = .obj [("segmented_image", .str (b64encode (webpSave img)))] ∧
      fs' = fun p => if p = "/tmp/seg_image_" ++ uuidHex ++ ".webp"
        then some (webpSave img) else fs p := by
  rcases hgi : get_image_from_input imopen model_input with ⟨steps, res⟩
  cases res with
  | error e => simp [segment_image, hgi] at hcall
  | ok image =>
    rcases hsm : m.segmentation_model with _ | sm
    · simp [segment_image, hgi, hsm] at hcall
    · rcases hrun : sm.run image with _ | ⟨result, rs⟩
      · simp [segment_image, hgi, hsm, hrun] at hcall
      · simp [segment_image, hgi, hsm, hrun] at hcall
        obtain ⟨hm', hfs', hj⟩ := hcall
        exact ⟨Image_fromarray result.plot, hm'.symm, hj.symm, hfs'.symm⟩

/-- C6: every successful `segment_image` call serializes the rendered
annotated array to WEBP through the temporary file
`/tmp/seg_image_{uuid4().hex}.webp`, whose bytes it reads back and
base64-encodes, returning `{segmented_image: s}` where `s` is a non-empty
base64 string that decodes back to exactly the WEBP-encoded bytes — a valid
image container (validity and byte-ness of the WEBP encoder's output being
the image library's guarantee, taken as hypotheses). -/
theorem segment_returns_decodable_webp_base64
    (m m' : ModelState)
    (imopen : List Nat → Except PyError PILImage)
    (webpSave : PILImage → List Nat) (validContainer : List Nat → Bool)
    (uuidHex : String) (fs fs' : String → Option (List Nat))
    (model_input : List (String × String)) (j : JsonVal)
    (hv : ∀ im, validContainer (webpSave im) = true)
    (hne : ∀ im, webpSave im ≠ [])
    (hbytes : ∀ im, ∀ b ∈ webpSave im, b < 256)
    (hcall : segment_image m imopen webpSave uuidHex fs model_input =
      (m', fs', .ok j)) :
    ∃ bytes : List Nat,
      j = .obj [("segmented_image", .str (b64encode bytes))] ∧
      b64encode bytes ≠ "" ∧
      pyB64decode (b64encode bytes) = .ok bytes ∧
      validContainer bytes = true ∧
      fs' ("/tmp/seg_image_" ++ uuidHex ++ ".webp") = some bytes := by
  obtain ⟨img, hm', hj, hfs'⟩ := segment_image_ok m m' imopen webpSave
    uuidHex fs fs' model_input j hcall
  refine ⟨webpSave img, hj, b64encode_ne_empty _ (hne img),
    pyB64_roundtrip _ (hbytes img), hv img, ?_⟩
  rw [hfs']
  simp

/-- The filesystem after the sample successful `segment_image` call. -/
def segFsAfter : String → Option (List Nat) :=
  fun p => if p = "/tmp/seg_image_u.webp" then some [82, 73, 70, 70] else none

/-- A segmentation result whose annotated plot array is `[[[0]]]`. -/
def segResult : YoloResult :=
  { boxes := some [], names := fun _ => "person", plot := [[[0]]] }

/-- A segmentation handle reporting `segResult` on every image. -/
def segHandle : ModelHandle :=
  { ckpt_path := "q", ckpt_date := "dt", task := "segment",
    run := fun _ => [segResult] }

/-- A loaded state with the sample segmentation handle. -/
def segState : ModelState :=
  { Model.init "d" "m" with segmentation_model := some segHandle }

/-- A sample WEBP encoder producing the RIFF header bytes for any image. -/
def webpRiff : PILImage → List Nat :=
  fun _ => [82, 73, 70, 70]

theorem segment_returns_decodable_webp_base64_witness :
    ∃ bytes : List Nat,
      (JsonVal.obj [("segmented_image", .str "UklGRg==")]) =
        .obj [("segmented_image", .str (b64encode bytes))] ∧
      b64encode bytes ≠ "" ∧
      pyB64decode (b64encode bytes) = .ok bytes ∧
      (fun bs : List Nat => !bs.isEmpty) bytes = true ∧
      segFsAfter ("/tmp/seg_image_" ++ "u" ++ ".webp") = some bytes :=
  segment_returns_decodable_webp_base64 segState segState imopenOk webpRiff
    (fun bs => !bs.isEmpty) "u" (fun _ => none) segFsAfter
    [("image_base64", "aGk=")] (.obj [("segmented_image", .str "UklGRg==")])
    (fun _ => rfl) (fun _ => by simp [webpRiff])
    (fun _ => by intro b hb; simp [webpRiff] at hb; omega) rfl

/-- C7: every successful `segment_image` call creates exactly one new file
and never deletes it: given that the randomly named temporary path is fresh,
after the call that path holds a file, and every other path is exactly as
before the call. -/
theorem segment_creates_exactly_one_file
    (m m' : ModelState)
    (imopen : List Nat → Except PyError PILImage)
    (webpSave : PILImage → List Nat) (uuidHex : String)
    (fs fs' : String → Option (List Nat))
    (model_input : List (String × String)) (j : JsonVal)
    (hfresh : fs ("/tmp/seg_image_" ++ uuidHex ++ ".webp") = none)
    (hcall : segment_image m imopen webpSave uuidHex fs model_input =
      (m', fs', .ok j)) :
    fs ("/tmp/seg_image_" ++ uuidHex ++ ".webp") = none ∧
    (fs' ("/tmp/seg_image_" ++ uuidHex ++ ".webp")).isSome = true ∧
    ∀ p : String, p ≠ "/tmp/seg_image_" ++ uuidHex ++ ".webp" →
      fs' p = fs p := by
  obtain ⟨img, hm', hj, hfs'⟩ := segment_image_ok m m' imopen webpSave
    uuidHex fs fs' model_input j hcall
  refine ⟨hfresh, ?_, ?_⟩
  · rw [hfs']
    simp
  · intro p hp
    rw [hfs']
    simp [hp]

theorem segment_creates_exactly_one_file_witness :
    (fun _ : String => (none : Option (List Nat)))
        ("/tmp/seg_image_" ++ "u" ++ ".webp") = none ∧
    (segFsAfter ("/tmp/seg_image_" ++ "u" ++ ".webp")).isSome = true ∧
    ∀ p : String, p ≠ "/tmp/seg_image_" ++ "u" ++ ".webp" →
      segFsAfter p = (fun _ : String => (none : Option (List Nat))) p :=
  segment_creates_exactly_one_file segState segState imopenOk webpRiff "u"
    (fun _ => none) segFsAfter [("image_base64", "aGk=")]
    (.obj [("segmented_image", .str "UklGRg==")]) rfl rfl
